import Mathlib

/-!
Shallow embedding of the detection-and-cleanup core of the Job_Detection
repository (Go), covering:

* the regex-based job pattern matcher (`events.MatchContainerName` and the
  equivalent loop in `functions.IsJobPattern`),
* the container / network / volume classification helpers
  (`IsJobContainer`, `IsComposeContainer`, `IsDockerComposeManaged`),
* the two variants of the cleanup reconciler found in the repository:
  the `package cleanup` variant of `src/cleanup/cleanup.go` (label-equality
  matching, compose detection) and the variant of `src/unnamed/part_007`
  (heuristic matching, retrying network cleanup, summary aggregation),
* the event-stream consumer loop (`MonitorContainerEvents`).

Engine calls (list / stop / remove) are modelled as an explicit action
trace; listing results are passed in as `Except` values so that listing
failures can be studied; the success of a container stop call is an
oracle `stopOk : String → Bool` (stop failures only influence control
flow: a failed stop skips that container's remove).  The Go regexp
engine is abstracted as `compile : String → Option (String → Bool)`
(`none` models a pattern that fails to compile).
-/

namespace JobDetection

/-- Character-list prefix test, used to implement the Go
`strings.Contains` on the embedding side. -/
def hasPrefixList : List Char → List Char → Bool
  | _, [] => true
  | [], _ :: _ => false
  | a :: as, b :: bs => a == b && hasPrefixList as bs

/-- Character-list substring test. -/
def hasSubstrList : List Char → List Char → Bool
  | [], sub => sub.isEmpty
  | c :: rest, sub => hasPrefixList (c :: rest) sub || hasSubstrList rest sub

/-- Go `strings.Contains s sub`. -/
def strContains (s sub : String) : Bool :=
  hasSubstrList s.data sub.data

/-- Go map lookup `labels[k]` with the zero-value default `""` for a
missing key. -/
def lookupLabel (labels : List (String × String)) (k : String) : String :=
  match labels.find? (fun p => p.1 == k) with
  | some p => p.2
  | none => ""

/-- Go two-valued map lookup `_, ok := labels[k]`: key presence. -/
def hasLabelKey (labels : List (String × String)) (k : String) : Bool :=
  (labels.find? (fun p => p.1 == k)).isSome

/-- The job-id label key used throughout `package cleanup`. -/
def ghJobLabel : String := "com.github.ci.job.id"

/-- The compose project label key. -/
def composeProjectLabel : String := "com.docker.compose.project"

/-- `types.Container` summary: the fields the repository reads. -/
structure Container where
  id : String
  names : List String
  labels : List (String × String)
  state : String
deriving DecidableEq

/-- `types.NetworkResource` summary: the fields the repository reads
(`Containers` is the set of attached container ids). -/
structure Network where
  id : String
  name : String
  labels : List (String × String)
  containers : List String
deriving DecidableEq

/-- `volume.Volume` summary: the fields the repository reads. -/
structure Volume where
  name : String
  labels : List (String × String)
deriving DecidableEq

/-- `container.StopOptions`. -/
structure StopOptions where
  timeout : Option Int
deriving DecidableEq

/-- `container.RemoveOptions`. -/
structure RemoveOptions where
  force : Bool
deriving DecidableEq

/-! ## Job pattern matcher (`src/events/events.go`, `MatchContainerName`) -/

/-- `events.MatchContainerName` (src/events/events.go lines 142-156):
for each pattern, `regexp.MatchString pattern containerName`; a pattern
whose compilation errors is logged and skipped; returns `true` at the
first matching pattern, `false` when the list is exhausted.  The regexp
engine is the abstract `compile` argument. -/
def MatchContainerName (compile : String → Option (String → Bool))
    (containerName : String) : List String → Bool
  | [] => false
  | p :: ps =>
    match compile p with
    | none => MatchContainerName compile containerName ps
    | some m =>
      if m containerName then true
      else MatchContainerName compile containerName ps

/-- The equivalent inline loop of `functions.IsJobPattern`
(src/cleanup/cleanup.go lines 331-344), operating on the inspected
container name. -/
def isJobPatternLoop (compile : String → Option (String → Bool))
    (containerName : String) : List String → Bool
  | [] => false
  | p :: ps =>
    match compile p with
    | none => isJobPatternLoop compile containerName ps
    | some m =>
      if m containerName then true
      else isJobPatternLoop compile containerName ps

/-! ## Classification helpers (`src/unnamed/part_007`) -/

/-- `cleanup.IsJobContainer` (src/unnamed/part_007 lines 197-199):
`container.Labels["com.github.ci.job.id"] == jobID ||
 container.Names[0] == fmt.Sprintf("/%s", jobID)`.
The `Names[0]` index is totalised with `headD ""`; the evaluation-order
faithful version is `IsJobContainerRun` below. -/
def IsJobContainer (c : Container) (jobID : String) : Bool :=
  lookupLabel c.labels ghJobLabel == jobID || c.names.headD "" == "/" ++ jobID

/-- `cleanup.IsComposeContainer` (src/unnamed/part_007 lines 203-206):
`container.Labels["com.docker.compose.project"] != "" ||
 strings.Contains(container.Names[0], "_")`. -/
def IsComposeContainer (c : Container) : Bool :=
  lookupLabel c.labels composeProjectLabel != "" || strContains (c.names.headD "") "_"

/-- Evaluation of `IsJobContainer` with Go operational semantics:
`||` short-circuits, and the `Names[0]` index panics (modelled as
`none`) when `Names` is empty and the index is actually reached. -/
def IsJobContainerRun (c : Container) (jobID : String) : Option Bool :=
  if lookupLabel c.labels ghJobLabel == jobID then some true
  else
    match c.names.head? with
    | none => none
    | some n => some (n == "/" ++ jobID)

/-- Evaluation of `IsComposeContainer` with Go operational semantics
(short-circuit `||`, `Names[0]` panic as `none`). -/
def IsComposeContainerRun (c : Container) : Option Bool :=
  if lookupLabel c.labels composeProjectLabel != "" then some true
  else
    match c.names.head? with
    | none => none
    | some n => some (strContains n "_")

/-- `cleanup.IsDockerComposeManaged` (src/cleanup/cleanup.go lines
168-175): any container carries the compose project label key. -/
def IsDockerComposeManaged (containers : List Container) : Bool :=
  containers.any (fun c => hasLabelKey c.labels composeProjectLabel)

/-- `cleanup.IsDockerComposeUp` (src/cleanup/cleanup.go lines 155-164)
over a listing result: a listing failure yields `false`. -/
def IsDockerComposeUp (res : Except Unit (List Container)) : Bool :=
  match res with
  | .error _ => false
  | .ok containers => IsDockerComposeManaged containers

/-! ## Engine actions and cleanup state -/

/-- One engine API call issued by the cleanup code. -/
inductive Action where
  | listContainers
  | listNetworks
  | listVolumes
  | composeDown
  | stop (id : String)
  | remove (id : String)
  | removeNetwork (id : String)
  | removeVolume (name : String)
deriving DecidableEq

/-- The engine listings a cleanup pass observes.  Each is the result of
the corresponding list call; for volumes the listing is already
engine-side filtered, as in the source. -/
structure EngineState where
  containersRes : Except Unit (List Container)
  networksRes : Except Unit (List Network)
  volumesRes : Except Unit (List Volume)

/-! ## Cleanup variant of `src/unnamed/part_007` -/

/-- The stop options built by `CleanUp` in src/unnamed/part_007 lines
37-38: a bounded grace timeout of 10 seconds. -/
def cleanUpV2StopOptions : StopOptions := ⟨some 10⟩

/-- The remove options built by `CleanUp` (part_007 line 36):
forced removal. -/
def cleanUpV2RemoveOptions : RemoveOptions := ⟨true⟩

/-- The per-container loop of `CleanupContainers` (src/unnamed/part_007
lines 84-104): for each container matching
`IsJobContainer c jobID || IsComposeContainer c`, if it is running issue
a stop (a failed stop `continue`s, skipping the remove), then issue the
forced remove. -/
def cleanupContainersLoopV2 (stopOk : String → Bool) (jobID : String) :
    List Container → List Action
  | [] => []
  | c :: rest =>
    (if IsJobContainer c jobID || IsComposeContainer c then
      if c.state == "running" then
        if stopOk c.id then [Action.stop c.id, Action.remove c.id]
        else [Action.stop c.id]
      else [Action.remove c.id]
    else []) ++ cleanupContainersLoopV2 stopOk jobID rest

/-- `cleanup.CleanupContainers` (src/unnamed/part_007 lines 77-111):
returns an error exactly when the container listing fails; otherwise
runs the per-container loop and returns `nil`. -/
def cleanupContainersV2 (res : Except Unit (List Container)) (jobID : String)
    (stopOk : String → Bool) : Option Unit × List Action :=
  match res with
  | .error _ => (some (), [Action.listContainers])
  | .ok containers =>
    (none, Action.listContainers :: cleanupContainersLoopV2 stopOk jobID containers)

/-- The network removal condition of part_007 `CleanupNetworks` line 134:
`strings.Contains(network.Name, jobID) ||
 strings.Contains(network.Name, "docker_default")`. -/
def networkMatchV2 (n : Network) (jobID : String) : Bool :=
  strContains n.name jobID || strContains n.name "docker_default"

/-- The bounded retry loop of part_007 `CleanupNetworks` (lines 122-159),
indexed by remaining attempts (`maxRetries = 5`): each attempt re-lists;
a listing failure returns the error; if some network matches, all
matching networks are removed and the pass ends; otherwise the loop
retries, and on the last attempt returns `nil` having removed nothing. -/
def networksAttemptV2 (res : Except Unit (List Network)) (jobID : String) :
    Nat → Option Unit × List Action
  | 0 => (none, [])
  | Nat.succ k =>
    match res with
    | .error _ => (some (), [Action.listNetworks])
    | .ok networks =>
      let matched := networks.filter (fun n => networkMatchV2 n jobID)
      if matched.isEmpty then
        if k = 0 then (none, [Action.listNetworks])
        else
          let r := networksAttemptV2 res jobID k
          (r.1, Action.listNetworks :: r.2)
      else (none, Action.listNetworks :: matched.map (fun n => Action.removeNetwork n.id))

/-- `cleanup.CleanupNetworks` of src/unnamed/part_007 (lines 122-159):
the retry loop started with `maxRetries = 5`. -/
def cleanupNetworksV2 (res : Except Unit (List Network)) (jobID : String) :
    Option Unit × List Action :=
  networksAttemptV2 res jobID 5

/-- `cleanup.CleanupVolumes` of src/unnamed/part_007 (lines 170-193):
the listing is engine-side filtered by a name pattern containing the job
id; every volume of the (filtered) listing is removed; an error is
returned exactly when the listing fails. -/
def cleanupVolumesV2 (res : Except Unit (List Volume)) : Option Unit × List Action :=
  match res with
  | .error _ => (some (), [Action.listVolumes])
  | .ok volumes =>
    (none, Action.listVolumes :: volumes.map (fun v => Action.removeVolume v.name))

/-- The aggregated outcome logged by part_007 `CleanUp` lines 50-63. -/
inductive Summary where
  | skippedNoJobID
  | noResources
  | completedWithErrors (containerErr networkErr volumeErr : Bool)
deriving DecidableEq

/-- Result of one part_007 `CleanUp` run: the summary and the action
trace. -/
structure RunResult where
  summary : Summary
  actions : List Action
deriving DecidableEq

/-- `cleanup.CleanUp` of src/unnamed/part_007 (lines 27-64): empty job
id returns after logging; otherwise the three per-kind cleanups run
unconditionally and the outcome is aggregated: the
"No resources found to clean up." summary fires exactly when all three
per-kind errors are `nil`. -/
def cleanUpV2 (st : EngineState) (jobID : String) (stopOk : String → Bool) : RunResult :=
  if jobID = "" then { summary := .skippedNoJobID, actions := [] }
  else
    let containerRes := cleanupContainersV2 st.containersRes jobID stopOk
    let networkRes := cleanupNetworksV2 st.networksRes jobID
    let volumeRes := cleanupVolumesV2 st.volumesRes
    { summary :=
        if containerRes.1 = none ∧ networkRes.1 = none ∧ volumeRes.1 = none then
          .noResources
        else
          .completedWithErrors containerRes.1.isSome networkRes.1.isSome volumeRes.1.isSome
      actions := containerRes.2 ++ networkRes.2 ++ volumeRes.2 }

/-! ## Cleanup variant of `src/cleanup/cleanup.go` (package cleanup) -/

/-- The per-container loop of `cleanup.CleanupContainers`
(src/cleanup/cleanup.go lines 79-91): matching is label equality only;
stop / remove structure as in the part_007 loop. -/
def cleanupContainersLoopGH (stopOk : String → Bool) (containerID : String) :
    List Container → List Action
  | [] => []
  | c :: rest =>
    (if lookupLabel c.labels ghJobLabel == containerID then
      if c.state == "running" then
        if stopOk c.id then [Action.stop c.id, Action.remove c.id]
        else [Action.stop c.id]
      else [Action.remove c.id]
    else []) ++ cleanupContainersLoopGH stopOk containerID rest

/-- `cleanup.CleanupContainers` (src/cleanup/cleanup.go lines 73-93). -/
def cleanupContainersGH (res : Except Unit (List Container)) (containerID : String)
    (stopOk : String → Bool) : Option Unit × List Action :=
  match res with
  | .error _ => (some (), [Action.listContainers])
  | .ok containers =>
    (none, Action.listContainers :: cleanupContainersLoopGH stopOk containerID containers)

/-- `cleanup.CleanupNetworks` (src/cleanup/cleanup.go lines 104-118):
a network is removed exactly when it has no attached containers and its
job-id label equals the given id. -/
def cleanupNetworksGH (res : Except Unit (List Network)) (containerID : String) :
    Option Unit × List Action :=
  match res with
  | .error _ => (some (), [Action.listNetworks])
  | .ok networks =>
    (none, Action.listNetworks ::
      (networks.filter
        (fun n => n.containers.isEmpty && lookupLabel n.labels ghJobLabel == containerID)).map
        (fun n => Action.removeNetwork n.id))

/-- `cleanup.CleanupVolumes` (src/cleanup/cleanup.go lines 129-146):
the listing is engine-side filtered by the job-id label; the loop
re-checks label equality before removing. -/
def cleanupVolumesGH (res : Except Unit (List Volume)) (containerID : String) :
    Option Unit × List Action :=
  match res with
  | .error _ => (some (), [Action.listVolumes])
  | .ok volumes =>
    (none, Action.listVolumes ::
      (volumes.filter (fun v => lookupLabel v.labels ghJobLabel == containerID)).map
        (fun v => Action.removeVolume v.name))

/-- Result of one `cleanup.CleanUp` (src/cleanup/cleanup.go) run. -/
structure ResultGH where
  skipped : Bool
  containerErr : Bool
  networkErr : Bool
  volumeErr : Bool
  actions : List Action
deriving DecidableEq

/-- `cleanup.CleanUp` (src/cleanup/cleanup.go lines 27-60): an empty id
returns after logging, before any engine call; otherwise compose
detection (one container listing; `docker-compose down` if a compose
label is present) precedes the three per-kind cleanups, which run
unconditionally; per-kind failures are logged individually. -/
def cleanUpGH (st : EngineState) (containerID : String) (stopOk : String → Bool) : ResultGH :=
  if containerID = "" then
    { skipped := true, containerErr := false, networkErr := false,
      volumeErr := false, actions := [] }
  else
    let composeActs :=
      Action.listContainers ::
        (if IsDockerComposeUp st.containersRes then [Action.composeDown] else [])
    let containerRes := cleanupContainersGH st.containersRes containerID stopOk
    let networkRes := cleanupNetworksGH st.networksRes containerID
    let volumeRes := cleanupVolumesGH st.volumesRes containerID
    { skipped := false
      containerErr := containerRes.1.isSome
      networkErr := networkRes.1.isSome
      volumeErr := volumeRes.1.isSome
      actions := composeActs ++ containerRes.2 ++ networkRes.2 ++ volumeRes.2 }

/-- Effect of an issued action on the engine state: stop marks the
container exited, removes delete by id / name, list calls and the
compose invocation leave the listings unchanged. -/
def applyAction (st : EngineState) : Action → EngineState
  | Action.stop i =>
    { st with containersRes :=
        st.containersRes.map (fun cs =>
          cs.map (fun c => if c.id = i then { c with state := "exited" } else c)) }
  | Action.remove i =>
    { st with containersRes :=
        st.containersRes.map (fun cs => cs.filter (fun c => c.id != i)) }
  | Action.removeNetwork i =>
    { st with networksRes :=
        st.networksRes.map (fun ns => ns.filter (fun n => n.id != i)) }
  | Action.removeVolume v =>
    { st with volumesRes :=
        st.volumesRes.map (fun vs => vs.filter (fun w => w.name != v)) }
  | _ => st

/-- Apply a whole action trace in order. -/
def applyActions (st : EngineState) (acts : List Action) : EngineState :=
  acts.foldl applyAction st

/-! ## Event stream consumer (`src/events/events.go`, lines 60-90) -/

/-- One arrival observed by the `select` of the monitoring goroutine:
either an event from the engine event channel or an error from the
engine error channel. -/
inductive FeedItem where
  | ev (e : String)
  | fail (msg : String)
deriving DecidableEq

/-- The wrapping applied at events.go line 83. -/
def wrapFeedError (msg : String) : String :=
  "error while receiving Docker events: " ++ msg

/-- The monitoring goroutine of `MonitorContainerEvents`
(src/events/events.go lines 64-87) run over a serialisation of channel
arrivals: events are forwarded in order; the first error is wrapped,
forwarded, and the goroutine returns, ignoring everything after it. -/
def monitorLoop : List FeedItem → List String × List String
  | [] => ([], [])
  | FeedItem.ev e :: rest =>
    let r := monitorLoop rest
    (e :: r.1, r.2)
  | FeedItem.fail msg :: _ => ([], [wrapFeedError msg])

/-! ## Theorems -/

theorem matchCN_true_iff (compile : String → Option (String → Bool)) (N : String)
    (P : List String) :
    MatchContainerName compile N P = true ↔
      ∃ p ∈ P, ∃ m, compile p = some m ∧ m N = true := by
  induction P with
  | nil => simp [MatchContainerName]
  | cons p ps ih =>
    cases hc : compile p with
    | none =>
      simp only [MatchContainerName, hc, ih]
      constructor
      · rintro ⟨q, hq, hm⟩
        exact ⟨q, List.mem_cons_of_mem _ hq, hm⟩
      · rintro ⟨q, hq, m, hcm, hmN⟩
        rcases List.mem_cons.mp hq with rfl | hq2
        · rw [hc] at hcm; cases hcm
        · exact ⟨q, hq2, m, hcm, hmN⟩
    | some m =>
      cases hmn : m N with
      | true =>
        simp only [MatchContainerName, hc, hmn, if_true, true_iff]
        exact ⟨p, List.mem_cons_self p ps, m, hc, hmn⟩
      | false =>
        simp only [MatchContainerName, hc, hmn, Bool.false_eq_true, if_false, ih]
        constructor
        · rintro ⟨q, hq, hm⟩
          exact ⟨q, List.mem_cons_of_mem _ hq, hm⟩
        · rintro ⟨q, hq, m2, hcm, hmN⟩
          rcases List.mem_cons.mp hq with rfl | hq2
          · rw [hc] at hcm
            cases hcm
            rw [hmn] at hmN
            cases hmN
          · exact ⟨q, hq2, m2, hcm, hmN⟩

theorem isJobPatternLoop_eq_matchCN (compile : String → Option (String → Bool))
    (N : String) (P : List String) :
    isJobPatternLoop compile N P = MatchContainerName compile N P := by
  induction P with
  | nil => rfl
  | cons p ps ih =>
    cases hc : compile p with
    | none => simp only [isJobPatternLoop, MatchContainerName, hc, ih]
    | some m => simp only [isJobPatternLoop, MatchContainerName, hc, ih]

/-- Claim C1: the pattern matcher (MatchContainerName and the equivalent
loop in IsJobPattern) returns true iff at least one pattern, when
compiled, matches the name; the empty pattern list yields false; a
pattern that fails to compile is skipped without affecting the remaining
patterns; evaluation short-circuits at the first matching pattern; and
the two loops agree. -/
theorem c1_matchContainerName_correct (compile : String → Option (String → Bool))
    (N : String) :
    (∀ P, MatchContainerName compile N P = true ↔
        ∃ p ∈ P, ∃ m, compile p = some m ∧ m N = true)
    ∧ MatchContainerName compile N [] = false
    ∧ (∀ p ps, compile p = none →
        MatchContainerName compile N (p :: ps) = MatchContainerName compile N ps)
    ∧ (∀ p ps m, compile p = some m → m N = true →
        MatchContainerName compile N (p :: ps) = true)
    ∧ (∀ P, isJobPatternLoop compile N P = MatchContainerName compile N P) := by
  refine ⟨matchCN_true_iff compile N, rfl, ?_, ?_, isJobPatternLoop_eq_matchCN compile N⟩
  · intro p ps hc
    simp only [MatchContainerName, hc]
  · intro p ps m hc hm
    simp only [MatchContainerName, hc, hm, if_true]

/-- A concrete regexp oracle for the pattern-matcher witness: the
pattern "bad(" fails to compile, any other pattern matches exactly
itself. -/
def compileW : String → Option (String → Bool) :=
  fun p => if p = "bad(" then none else some (fun s => s == p)

theorem c1_matchContainerName_correct_witness :
    MatchContainerName compileW "x" ["bad(", "x"] = MatchContainerName compileW "x" ["x"]
    ∧ MatchContainerName compileW "x" ["x", "y"] = true
    ∧ (MatchContainerName compileW "x" ["x"] = true ↔
        ∃ p ∈ ["x"], ∃ m, compileW p = some m ∧ m "x" = true) := by
  refine ⟨?_, ?_, (c1_matchContainerName_correct compileW "x").1 ["x"]⟩
  · exact (c1_matchContainerName_correct compileW "x").2.2.1 "bad(" ["x"] (by rfl)
  · exact (c1_matchContainerName_correct compileW "x").2.2.2.1 "x" ["y"]
      (fun s => s == "x") (by rfl) (by rfl)

/-- Projection of a feed arrival to its event payload. -/
def evOf : FeedItem → Option String
  | FeedItem.ev e => some e
  | FeedItem.fail _ => none

/-- Claim C6: once the monitoring goroutine receives an error from the
engine error channel it forwards exactly that one (wrapped) error and
returns: the events forwarded are exactly those that arrived before the
error, nothing after the error is ever emitted, and no reconnection is
attempted (the output is independent of the rest of the feed). -/
theorem c6_monitor_error_terminal (pre post : List FeedItem) (msg : String)
    (hpre : ∀ x ∈ pre, (evOf x).isSome = true) :
    monitorLoop (pre ++ FeedItem.fail msg :: post) =
      (pre.filterMap evOf, [wrapFeedError msg]) := by
  induction pre with
  | nil => simp [monitorLoop]
  | cons x xs ih =>
    cases x with
    | ev e =>
      have hxs : ∀ y ∈ xs, (evOf y).isSome = true :=
        fun y hy => hpre y (List.mem_cons_of_mem _ hy)
      simp only [List.cons_append, monitorLoop, List.append_eq, ih hxs,
        List.filterMap_cons, evOf]
    | fail m2 =>
      have := hpre (FeedItem.fail m2) (List.mem_cons_self _ _)
      simp [evOf] at this

theorem c6_monitor_error_terminal_witness :
    monitorLoop [FeedItem.ev "start", FeedItem.fail "boom", FeedItem.ev "late"] =
      (["start"], [wrapFeedError "boom"]) :=
  c6_monitor_error_terminal [FeedItem.ev "start"] [FeedItem.ev "late"] "boom" (by decide)

/-- Claim C9: with the empty job identifier, both CleanUp variants
return immediately: no compose detection, no external teardown, no list,
stop or remove call of any kind is issued, and the engine state is left
unchanged. -/
theorem c9_empty_jobid_noop (st : EngineState) (stopOk : String → Bool) :
    cleanUpGH st "" stopOk =
      { skipped := true, containerErr := false, networkErr := false,
        volumeErr := false, actions := [] }
    ∧ cleanUpV2 st "" stopOk = { summary := Summary.skippedNoJobID, actions := [] }
    ∧ applyActions st (cleanUpGH st "" stopOk).actions = st := by
  refine ⟨rfl, rfl, rfl⟩

theorem loopV2_append (stopOk : String → Bool) (jobID : String)
    (l1 l2 : List Container) :
    cleanupContainersLoopV2 stopOk jobID (l1 ++ l2) =
      cleanupContainersLoopV2 stopOk jobID l1 ++ cleanupContainersLoopV2 stopOk jobID l2 := by
  induction l1 with
  | nil => simp [cleanupContainersLoopV2]
  | cons c cs ih => simp [cleanupContainersLoopV2, ih]

/-- Claim C5: for every container in the listing attributable to the
job identifier, the part_007 CleanupContainers issues, in place: a stop
followed by a forced remove when the container is running and the stop
succeeds; only the (failed) stop, skipping the remove, when the stop
fails, the loop continuing with the remaining containers; and the
forced remove directly when the container is not running.  The stop
options carry the bounded 10-second grace timeout and the remove is
forced. -/
theorem c5_container_stop_remove (stopOk : String → Bool) (jobID : String)
    (l1 l2 : List Container) (c : Container)
    (hattr : (IsJobContainer c jobID || IsComposeContainer c) = true) :
    cleanupContainersLoopV2 stopOk jobID (l1 ++ c :: l2) =
      cleanupContainersLoopV2 stopOk jobID l1
        ++ (if c.state == "running" then
              if stopOk c.id then [Action.stop c.id, Action.remove c.id]
              else [Action.stop c.id]
            else [Action.remove c.id])
        ++ cleanupContainersLoopV2 stopOk jobID l2
    ∧ cleanUpV2StopOptions.timeout = some 10
    ∧ cleanUpV2RemoveOptions.force = true := by
  refine ⟨?_, rfl, rfl⟩
  rw [loopV2_append]
  conv_lhs =>
    rw [show cleanupContainersLoopV2 stopOk jobID (c :: l2) =
      (if IsJobContainer c jobID || IsComposeContainer c then
        if c.state == "running" then
          if stopOk c.id then [Action.stop c.id, Action.remove c.id]
          else [Action.stop c.id]
        else [Action.remove c.id]
      else []) ++ cleanupContainersLoopV2 stopOk jobID l2 from rfl]
  rw [hattr]
  simp [List.append_assoc]

/-- First witness container: running, attributable by exact name, stop
fails. -/
def cW1 : Container := ⟨"c1", ["/j"], [], "running"⟩

/-- Second witness container: exited, attributable by label. -/
def cW2 : Container := ⟨"c2", ["/other"], [("com.github.ci.job.id", "j")], "exited"⟩

theorem c5_container_stop_remove_witness :
    cleanupContainersLoopV2 (fun i => i != "c1") "j" ([] ++ cW1 :: [cW2]) =
      cleanupContainersLoopV2 (fun i => i != "c1") "j" []
        ++ (if cW1.state == "running" then
              if (fun i => i != "c1") cW1.id then [Action.stop cW1.id, Action.remove cW1.id]
              else [Action.stop cW1.id]
            else [Action.remove cW1.id])
        ++ cleanupContainersLoopV2 (fun i => i != "c1") "j" [cW2]
    ∧ cleanUpV2StopOptions.timeout = some 10
    ∧ cleanUpV2RemoveOptions.force = true :=
  c5_container_stop_remove (fun i => i != "c1") "j" [] [cW2] cW1 (by decide)

/-- Claim C3 counterexample: the container named "/foo-1234-bar"
contains the job identifier "1234" as a substring, yet IsJobContainer
returns false for it, the CleanupContainers guard does not fire, and
the container is not cleaned — the substring-name heuristic the claim
asserts does not exist in the code. -/
theorem c3_counterexample :
    strContains "/foo-1234-bar" "1234" = true
    ∧ IsJobContainer ⟨"c1", ["/foo-1234-bar"], [], "exited"⟩ "1234" = false
    ∧ cleanupContainersLoopV2 (fun _ => true) "1234"
        [⟨"c1", ["/foo-1234-bar"], [], "exited"⟩] = [] := by
  decide

/-- Claim C3 amended: IsJobContainer returns true iff the job-id label
equals the identifier or the first name is "/" followed by the
identifier (no substring heuristic); IsComposeContainer returns true
iff the compose project label is non-empty or the first name contains
an underscore; and the CleanupContainers guard — equivalently, whether
a singleton pass acts on the container at all — is exactly the
disjunction of these two checks (no recency heuristic). -/
theorem c3_attribution_characterisation (c : Container) (jobID : String)
    (stopOk : String → Bool) :
    (IsJobContainer c jobID = true ↔
      lookupLabel c.labels ghJobLabel = jobID ∨ c.names.headD "" = "/" ++ jobID)
    ∧ (IsComposeContainer c = true ↔
      lookupLabel c.labels composeProjectLabel ≠ "" ∨ strContains (c.names.headD "") "_" = true)
    ∧ (cleanupContainersLoopV2 stopOk jobID [c] ≠ [] ↔
      (IsJobContainer c jobID || IsComposeContainer c) = true) := by
  refine ⟨?_, ?_, ?_⟩
  · simp [IsJobContainer]
  · simp [IsComposeContainer, bne_iff_ne]
  · constructor
    · intro h
      by_contra hg
      rw [Bool.not_eq_true] at hg
      simp [cleanupContainersLoopV2, hg] at h
    · intro hg
      rw [show cleanupContainersLoopV2 stopOk jobID [c] =
        (if IsJobContainer c jobID || IsComposeContainer c then
          if c.state == "running" then
            if stopOk c.id then [Action.stop c.id, Action.remove c.id]
            else [Action.stop c.id]
          else [Action.remove c.id]
        else []) ++ cleanupContainersLoopV2 stopOk jobID [] from rfl]
      rw [hg]
      by_cases hs : (c.state == "running") = true
      · by_cases hk : stopOk c.id = true
        · simp [hs, hk, cleanupContainersLoopV2]
        · simp [hs, hk, cleanupContainersLoopV2]
      · simp [hs, cleanupContainersLoopV2]

theorem removeNetwork_mem_GH (nets : List Network) (jobID i : String) :
    Action.removeNetwork i ∈ (cleanupNetworksGH (Except.ok nets) jobID).2 ↔
      ∃ n ∈ nets, n.id = i ∧ n.containers = []
        ∧ lookupLabel n.labels ghJobLabel = jobID := by
  simp only [cleanupNetworksGH, List.mem_cons, List.mem_map, List.mem_filter]
  constructor
  · rintro (h | ⟨n, ⟨hn, hcond⟩, hid⟩)
    · cases h
    · rw [Bool.and_eq_true, List.isEmpty_iff, beq_iff_eq] at hcond
      cases hid
      exact ⟨n, hn, rfl, hcond.1, hcond.2⟩
  · rintro ⟨n, hn, rfl, hce, hlab⟩
    refine Or.inr ⟨n, ⟨hn, ?_⟩, rfl⟩
    rw [Bool.and_eq_true, List.isEmpty_iff, beq_iff_eq]
    exact ⟨hce, hlab⟩

theorem removeNetwork_mem_attemptV2 (nets : List Network) (jobID i : String) (k : Nat) :
    Action.removeNetwork i ∈ (networksAttemptV2 (Except.ok nets) jobID k).2 ↔
      k ≠ 0 ∧ ∃ n ∈ nets, n.id = i ∧ networkMatchV2 n jobID = true := by
  induction k with
  | zero => simp [networksAttemptV2]
  | succ k ih =>
    rw [networksAttemptV2]
    cases hm : (nets.filter (fun n => networkMatchV2 n jobID)).isEmpty with
    | true =>
      rw [List.isEmpty_iff] at hm
      have hnone : ¬∃ n ∈ nets, n.id = i ∧ networkMatchV2 n jobID = true := by
        rintro ⟨n, hn, _, hmatch⟩
        have : n ∈ nets.filter (fun n => networkMatchV2 n jobID) :=
          List.mem_filter.mpr ⟨hn, hmatch⟩
        rw [hm] at this
        cases this
      simp only [hm, List.isEmpty_nil, if_true]
      by_cases hk : k = 0
      · simp [hk, hnone]
      · simp only [hk, if_false]
        simp only [List.mem_cons, ih]
        constructor
        · rintro (h | ⟨_, h⟩)
          · cases h
          · exact absurd h hnone
        · rintro ⟨_, h⟩
          exact absurd h hnone
    | false =>
      simp only [hm, Bool.false_eq_true, if_false, List.mem_cons, List.mem_map,
        List.mem_filter]
      constructor
      · rintro (h | ⟨n, ⟨hn, hmatch⟩, hid⟩)
        · cases h
        · cases hid
          exact ⟨Nat.succ_ne_zero k, n, hn, rfl, hmatch⟩
      · rintro ⟨_, n, hn, rfl, hmatch⟩
        exact Or.inr ⟨n, ⟨hn, hmatch⟩, rfl⟩

/-- Claim C2 counterexample: the part_007 CleanupNetworks removes the
network "n1" even though container "c9" is attached to it (its name
contains the job id), and the cleanup.go CleanupNetworks does not
remove the unattached network "n2" whose job-id label does not match —
refuting both halves of the claim. -/
theorem c2_counterexample :
    Action.removeNetwork "n1" ∈
      (cleanupNetworksV2 (Except.ok [⟨"n1", "job1-net", [], ["c9"]⟩]) "job1").2
    ∧ Action.removeNetwork "n2" ∉
      (cleanupNetworksGH (Except.ok [⟨"n2", "orphan-net", [], []⟩]) "job1").2 := by
  decide

/-- Claim C2 amended: the cleanup.go CleanupNetworks removes exactly the
networks with no attached containers whose job-id label equals the
identifier (so a network with attached containers is never removed, but
an unattached network is removed only when its label matches, not
unconditionally); the part_007 CleanupNetworks removes exactly the
networks whose name contains the job id or "docker_default", regardless
of attached containers. -/
theorem c2_network_removal_characterisation (nets : List Network) (jobID i : String) :
    (Action.removeNetwork i ∈ (cleanupNetworksGH (Except.ok nets) jobID).2 ↔
      ∃ n ∈ nets, n.id = i ∧ n.containers = []
        ∧ lookupLabel n.labels ghJobLabel = jobID)
    ∧ (Action.removeNetwork i ∈ (cleanupNetworksV2 (Except.ok nets) jobID).2 ↔
      ∃ n ∈ nets, n.id = i ∧ networkMatchV2 n jobID = true) := by
  refine ⟨removeNetwork_mem_GH nets jobID i, ?_⟩
  rw [cleanupNetworksV2, removeNetwork_mem_attemptV2]
  simp

theorem cleanupContainersV2_fst (res : Except Unit (List Container)) (jobID : String)
    (stopOk : String → Bool) :
    (cleanupContainersV2 res jobID stopOk).1 = none ↔ res ≠ Except.error () := by
  cases res with
  | error e => cases e; simp [cleanupContainersV2]
  | ok l => simp [cleanupContainersV2]

theorem networksAttemptV2_ok_fst (nets : List Network) (jobID : String) (k : Nat) :
    (networksAttemptV2 (Except.ok nets) jobID k).1 = none := by
  induction k with
  | zero => rfl
  | succ k ih =>
    simp only [networksAttemptV2]
    cases hm : (nets.filter (fun n => networkMatchV2 n jobID)).isEmpty
    · simp [hm]
    · by_cases hk : k = 0
      · simp [hm, hk]
      · simp [hm, hk, ih]

theorem cleanupNetworksV2_fst (res : Except Unit (List Network)) (jobID : String) :
    (cleanupNetworksV2 res jobID).1 = none ↔ res ≠ Except.error () := by
  cases res with
  | error e => cases e; simp [cleanupNetworksV2, networksAttemptV2]
  | ok nets => simp [cleanupNetworksV2, networksAttemptV2_ok_fst]

theorem cleanupVolumesV2_fst (res : Except Unit (List Volume)) :
    (cleanupVolumesV2 res).1 = none ↔ res ≠ Except.error () := by
  cases res with
  | error e => cases e; simp [cleanupVolumesV2]
  | ok l => simp [cleanupVolumesV2]

/-- Claim C4 counterexample: against a listing holding one container
whose job-id label equals "1234", CleanUp removes that container and
yet logs the "No resources found to clean up." summary — and the code
has only three per-kind cleanups (containers, networks, volumes), no
services cleanup — so the summary does not mean "no matching resources
were found". -/
theorem c4_counterexample :
    (cleanUpV2 ⟨Except.ok [⟨"c1", ["/other"], [("com.github.ci.job.id", "1234")], "exited"⟩],
        Except.ok [], Except.ok []⟩ "1234" (fun _ => true)).summary = Summary.noResources
    ∧ Action.remove "c1" ∈
      (cleanUpV2 ⟨Except.ok [⟨"c1", ["/other"], [("com.github.ci.job.id", "1234")], "exited"⟩],
        Except.ok [], Except.ok []⟩ "1234" (fun _ => true)).actions := by
  decide

/-- Claim C4 amended: for a non-empty job identifier, CleanUp
(part_007) runs its three per-kind cleanups — containers, networks,
volumes; a services cleanup does not exist — unconditionally, each
kind's action trace being computed from its own listing alone (so one
kind's failure never prevents the others), and logs the "No resources
found to clean up." summary exactly when none of the three listing
calls failed, regardless of whether matching resources were found and
removed; otherwise it reports the per-kind errors. -/
theorem c4_cleanup_aggregation (st : EngineState) (jobID : String)
    (stopOk : String → Bool) (hj : jobID ≠ "") :
    ((cleanUpV2 st jobID stopOk).summary = Summary.noResources ↔
      st.containersRes ≠ Except.error () ∧ st.networksRes ≠ Except.error ()
        ∧ st.volumesRes ≠ Except.error ())
    ∧ (cleanUpV2 st jobID stopOk).actions =
        (cleanupContainersV2 st.containersRes jobID stopOk).2
          ++ (cleanupNetworksV2 st.networksRes jobID).2
          ++ (cleanupVolumesV2 st.volumesRes).2 := by
  have h1 := cleanupContainersV2_fst st.containersRes jobID stopOk
  have h2 := cleanupNetworksV2_fst st.networksRes jobID
  have h3 := cleanupVolumesV2_fst st.volumesRes
  constructor
  · simp only [cleanUpV2, if_neg hj]
    split
    · next hP =>
      simp only [true_iff]
      exact ⟨h1.mp hP.1, h2.mp hP.2.1, h3.mp hP.2.2⟩
    · next hP =>
      constructor
      · intro h
        exact Summary.noConfusion h
      · intro hR
        exact absurd ⟨h1.mpr hR.1, h2.mpr hR.2.1, h3.mpr hR.2.2⟩ hP
  · simp only [cleanUpV2, if_neg hj]

/-- The witness state for the aggregation claim: the container listing
fails, the other listings succeed. -/
def stC4W : EngineState := ⟨Except.error (), Except.ok [], Except.ok []⟩

theorem c4_cleanup_aggregation_witness :
    ((cleanUpV2 stC4W "1234" (fun _ => true)).summary = Summary.noResources ↔
      stC4W.containersRes ≠ Except.error () ∧ stC4W.networksRes ≠ Except.error ()
        ∧ stC4W.volumesRes ≠ Except.error ())
    ∧ (cleanUpV2 stC4W "1234" (fun _ => true)).actions =
        (cleanupContainersV2 stC4W.containersRes "1234" (fun _ => true)).2
          ++ (cleanupNetworksV2 stC4W.networksRes "1234").2
          ++ (cleanupVolumesV2 stC4W.volumesRes).2 :=
  c4_cleanup_aggregation stC4W "1234" (fun _ => true) (by decide)

theorem networksAttemptV2_nomatch_actions (nets : List Network) (jobID : String)
    (h : nets.filter (fun n => networkMatchV2 n jobID) = []) (k : Nat) :
    ∀ a ∈ (networksAttemptV2 (Except.ok nets) jobID k).2, a = Action.listNetworks := by
  induction k with
  | zero => intro a ha; cases ha
  | succ k ih =>
    simp only [networksAttemptV2, h, List.isEmpty_nil, if_true]
    by_cases hk : k = 0
    · simp [hk]
    · simp only [hk, if_false]
      intro a ha
      rcases List.mem_cons.mp ha with rfl | ha2
      · rfl
      · exact ih a ha2

theorem applyAction_listcall (st : EngineState) (a : Action)
    (h : a = Action.listContainers ∨ a = Action.listNetworks ∨ a = Action.listVolumes) :
    applyAction st a = st := by
  rcases h with rfl | rfl | rfl <;> rfl

theorem applyActions_listonly (st : EngineState) (acts : List Action)
    (h : ∀ a ∈ acts,
      a = Action.listContainers ∨ a = Action.listNetworks ∨ a = Action.listVolumes) :
    applyActions st acts = st := by
  induction acts generalizing st with
  | nil => rfl
  | cons a rest ih =>
    show List.foldl applyAction st (a :: rest) = st
    rw [List.foldl_cons, applyAction_listcall st a (h a (List.mem_cons_self _ _))]
    exact ih st (fun x hx => h x (List.mem_cons_of_mem _ hx))

/-- Claim C7: running CleanUp (part_007) against an already-clean
engine state — empty container listing, no network whose name matches
the job id or "docker_default", empty (filtered) volume listing — with
a non-empty job identifier issues only list calls (no stop or remove
call of any kind), logs the "No resources found to clean up." summary,
and leaves the engine state unchanged, so a second consecutive run
returns exactly the same result. -/
theorem c7_idempotent_clean_state (st : EngineState) (jobID : String)
    (stopOk : String → Bool) (nets : List Network) (hj : jobID ≠ "")
    (hc : st.containersRes = Except.ok [])
    (hn : st.networksRes = Except.ok nets)
    (hnets : ∀ n ∈ nets, networkMatchV2 n jobID = false)
    (hv : st.volumesRes = Except.ok []) :
    (cleanUpV2 st jobID stopOk).summary = Summary.noResources
    ∧ (∀ a ∈ (cleanUpV2 st jobID stopOk).actions,
        a = Action.listContainers ∨ a = Action.listNetworks ∨ a = Action.listVolumes)
    ∧ applyActions st (cleanUpV2 st jobID stopOk).actions = st
    ∧ cleanUpV2 (applyActions st (cleanUpV2 st jobID stopOk).actions) jobID stopOk
        = cleanUpV2 st jobID stopOk := by
  have hfilter : nets.filter (fun n => networkMatchV2 n jobID) = [] := by
    rw [List.filter_eq_nil_iff]
    intro n hn2
    rw [hnets n hn2]
    exact Bool.false_ne_true
  have hsum : (cleanUpV2 st jobID stopOk).summary = Summary.noResources := by
    simp only [cleanUpV2, if_neg hj, hc, hn, hv]
    rw [if_pos]
    exact ⟨by simp [cleanupContainersV2], by
      rw [cleanupNetworksV2]; exact networksAttemptV2_ok_fst nets jobID 5, by
      simp [cleanupVolumesV2]⟩
  have hacts : (cleanUpV2 st jobID stopOk).actions =
      [Action.listContainers] ++ (networksAttemptV2 (Except.ok nets) jobID 5).2
        ++ [Action.listVolumes] := by
    simp only [cleanUpV2, if_neg hj, hc, hn, hv, cleanupContainersV2, cleanupVolumesV2,
      cleanupNetworksV2, cleanupContainersLoopV2]
    rfl
  have hmem : ∀ a ∈ (cleanUpV2 st jobID stopOk).actions,
      a = Action.listContainers ∨ a = Action.listNetworks ∨ a = Action.listVolumes := by
    intro a ha
    rw [hacts] at ha
    rcases List.mem_append.mp ha with ha2 | ha3
    · rcases List.mem_append.mp ha2 with ha4 | ha5
      · left
        exact List.mem_singleton.mp ha4
      · right; left
        exact networksAttemptV2_nomatch_actions nets jobID hfilter 5 a ha5
    · right; right
      exact List.mem_singleton.mp ha3
  have hfix : applyActions st (cleanUpV2 st jobID stopOk).actions = st :=
    applyActions_listonly st _ hmem
  exact ⟨hsum, hmem, hfix, by rw [hfix]⟩

/-- The witness clean state: empty listings everywhere. -/
def stCleanW : EngineState := ⟨Except.ok [], Except.ok [], Except.ok []⟩

theorem c7_idempotent_clean_state_witness :
    (cleanUpV2 stCleanW "1234" (fun _ => true)).summary = Summary.noResources
    ∧ (∀ a ∈ (cleanUpV2 stCleanW "1234" (fun _ => true)).actions,
        a = Action.listContainers ∨ a = Action.listNetworks ∨ a = Action.listVolumes)
    ∧ applyActions stCleanW (cleanUpV2 stCleanW "1234" (fun _ => true)).actions = stCleanW
    ∧ cleanUpV2 (applyActions stCleanW (cleanUpV2 stCleanW "1234" (fun _ => true)).actions)
        "1234" (fun _ => true) = cleanUpV2 stCleanW "1234" (fun _ => true) :=
  c7_idempotent_clean_state stCleanW "1234" (fun _ => true) [] (by decide) rfl rfl
    (by intro n hn; cases hn) rfl

/-- Claim C8 counterexample: a container whose Names slice is empty but
whose job-id label equals the identifier is evaluated without any index
panic by IsJobContainer (Go's short-circuiting disjunction never
reaches Names[0]), and likewise IsComposeContainer with a non-empty
compose project label — so the claim that evaluation is undefined for
every container with an empty Names slice is false. -/
theorem c8_counterexample :
    IsJobContainerRun ⟨"c1", [], [("com.github.ci.job.id", "1234")], "exited"⟩ "1234"
      = some true
    ∧ IsComposeContainerRun ⟨"c2", [], [("com.docker.compose.project", "p")], "running"⟩
      = some true := by
  decide

/-- Claim C8 amended: the Names[0] index in IsJobContainer and
IsComposeContainer is reached only when the label disjunct is false, so
evaluation panics (is undefined) exactly for a container with an empty
Names slice whose job-id label differs from the identifier
(respectively whose compose project label is empty); whenever Names is
non-empty both evaluations are defined and agree with the totalised
functions, so a listed container is only implicitly required to carry a
name when its labels do not short-circuit the check. -/
theorem c8_names_indexing (c : Container) (jobID : String) :
    (IsJobContainerRun c jobID = none ↔
      c.names = [] ∧ lookupLabel c.labels ghJobLabel ≠ jobID)
    ∧ (IsComposeContainerRun c = none ↔
      c.names = [] ∧ lookupLabel c.labels composeProjectLabel = "")
    ∧ (c.names ≠ [] →
      IsJobContainerRun c jobID = some (IsJobContainer c jobID)
        ∧ IsComposeContainerRun c = some (IsComposeContainer c)) := by
  refine ⟨?_, ?_, ?_⟩
  · rw [IsJobContainerRun]
    by_cases hl : (lookupLabel c.labels ghJobLabel == jobID) = true
    · rw [if_pos hl, beq_iff_eq] at *
      simp [hl]
    · rw [if_neg hl]
      rw [show (¬(lookupLabel c.labels ghJobLabel == jobID) = true) =
        (lookupLabel c.labels ghJobLabel ≠ jobID) from by rw [beq_iff_eq]] at hl
      cases hna : c.names with
      | nil => simp [hl]
      | cons n ns => simp
  · rw [IsComposeContainerRun]
    by_cases hl : (lookupLabel c.labels composeProjectLabel != "") = true
    · rw [if_pos hl]
      rw [bne_iff_ne] at hl
      simp [hl]
    · rw [if_neg hl]
      rw [show (¬(lookupLabel c.labels composeProjectLabel != "") = true) =
        (lookupLabel c.labels composeProjectLabel = "") from by
          rw [bne_iff_ne]; simp] at hl
      cases hna : c.names with
      | nil => simp [hl]
      | cons n ns => simp
  · intro hne
    cases hna : c.names with
    | nil => exact absurd hna hne
    | cons n ns =>
      constructor
      · rw [IsJobContainerRun, IsJobContainer, hna]
        by_cases hl : (lookupLabel c.labels ghJobLabel == jobID) = true
        · simp [hl]
        · rw [Bool.not_eq_true] at hl
          simp [hl]
      · rw [IsComposeContainerRun, IsComposeContainer, hna]
        by_cases hl : (lookupLabel c.labels composeProjectLabel != "") = true
        · simp [hl]
        · rw [Bool.not_eq_true] at hl
          simp [hl]

/-- The witness container for the indexing claim: one name, no
labels. -/
def cW8 : Container := ⟨"c8", ["/x"], [], "exited"⟩

theorem c8_names_indexing_witness :
    IsJobContainerRun cW8 "7" = some (IsJobContainer cW8 "7")
    ∧ IsComposeContainerRun cW8 = some (IsComposeContainer cW8) :=
  (c8_names_indexing cW8 "7").2.2 (by decide)

/-- Claim C10: each per-kind cleanup of cleanup.go returns a non-nil
error exactly when its listing call fails — individual stop failures
(over every stop oracle) never propagate into the returned error — and
the per-kind error outcomes reported by the top-level CleanUp are
exactly these listing-failure flags. -/
theorem c10_perkind_error_iff_listing (st : EngineState) (jobID : String)
    (stopOk : String → Bool) (hj : jobID ≠ "") :
    ((cleanupContainersGH st.containersRes jobID stopOk).1 = some () ↔
      st.containersRes = Except.error ())
    ∧ ((cleanupNetworksGH st.networksRes jobID).1 = some () ↔
      st.networksRes = Except.error ())
    ∧ ((cleanupVolumesGH st.volumesRes jobID).1 = some () ↔
      st.volumesRes = Except.error ())
    ∧ (cleanUpGH st jobID stopOk).containerErr
        = (cleanupContainersGH st.containersRes jobID stopOk).1.isSome
    ∧ (cleanUpGH st jobID stopOk).networkErr
        = (cleanupNetworksGH st.networksRes jobID).1.isSome
    ∧ (cleanUpGH st jobID stopOk).volumeErr
        = (cleanupVolumesGH st.volumesRes jobID).1.isSome := by
  refine ⟨?_, ?_, ?_, ?_, ?_, ?_⟩
  · cases hr : st.containersRes with
    | error e => cases e; simp [cleanupContainersGH]
    | ok l => simp [cleanupContainersGH]
  · cases hr : st.networksRes with
    | error e => cases e; simp [cleanupNetworksGH]
    | ok l => simp [cleanupNetworksGH]
  · cases hr : st.volumesRes with
    | error e => cases e; simp [cleanupVolumesGH]
    | ok l => simp [cleanupVolumesGH]
  · simp only [cleanUpGH, if_neg hj]
  · simp only [cleanUpGH, if_neg hj]
  · simp only [cleanUpGH, if_neg hj]

/-- The witness state for the per-kind error claim: the network listing
fails, the other listings succeed. -/
def stC10W : EngineState := ⟨Except.ok [], Except.error (), Except.ok []⟩

theorem c10_perkind_error_iff_listing_witness :
    ((cleanupContainersGH stC10W.containersRes "1234" (fun _ => true)).1 = some () ↔
      stC10W.containersRes = Except.error ())
    ∧ ((cleanupNetworksGH stC10W.networksRes "1234").1 = some () ↔
      stC10W.networksRes = Except.error ())
    ∧ ((cleanupVolumesGH stC10W.volumesRes "1234").1 = some () ↔
      stC10W.volumesRes = Except.error ())
    ∧ (cleanUpGH stC10W "1234" (fun _ => true)).containerErr
        = (cleanupContainersGH stC10W.containersRes "1234" (fun _ => true)).1.isSome
    ∧ (cleanUpGH stC10W "1234" (fun _ => true)).networkErr
        = (cleanupNetworksGH stC10W.networksRes "1234").1.isSome
    ∧ (cleanUpGH stC10W "1234" (fun _ => true)).volumeErr
        = (cleanupVolumesGH stC10W.volumesRes "1234").1.isSome :=
  c10_perkind_error_iff_listing stC10W "1234" (fun _ => true) (by decide)

end JobDetection
